import Mathlib

/-!
# Verification of the step-execution control loop and browser sub-agent

Shallow embedding of `src/agent/agent_loop3.py` (classes `AgentLoop`,
`StepExecutionTracker`) and `src/browser/browser.py` (class `Browser`).

External collaborators (the generative-model calls, the MCP tool transport,
perception / decision / summarization) are modelled as oracles: per-iteration
records of the values the collaborator calls would return.  The graph
bookkeeping object `ContextManager` is not part of the sources; its operations
are modelled from the specification, each marked `Modelled from the spec:` in
its doc comment.  `pdb.set_trace()` and `time.sleep` calls in the sources are
semantically no-ops and are not modelled.
-/

/-! ## StepExecutionTracker (src/agent/agent_loop3.py lines 293-319) -/

/-- Lookup in a Python-dict-like association list with default 0,
mirroring `self.attempts.get(step_id, 0)`. -/
def lookupD (l : List (String × Nat)) (k : String) : Nat :=
  match l.find? (fun p => p.1 = k) with
  | some p => p.2
  | none => 0

/-- Insert-or-update of a key in the association list (Python dict assignment). -/
def insertD (l : List (String × Nat)) (k : String) (v : Nat) : List (String × Nat) :=
  match l with
  | [] => [(k, v)]
  | p :: rest => if p.1 = k then (k, v) :: rest else p :: insertD rest k v

/-- State of `StepExecutionTracker`. -/
structure StepExecutionTracker where
  max_steps : Nat
  max_retries : Nat
  attempts : List (String × Nat)
  tries : Nat
  root_failures : Nat
deriving DecidableEq

/-- `StepExecutionTracker.__init__` with explicit arguments: fresh counters. -/
def StepExecutionTracker.init (max_steps max_retries : Nat) : StepExecutionTracker :=
  { max_steps := max_steps, max_retries := max_retries,
    attempts := [], tries := 0, root_failures := 0 }

/-- `StepExecutionTracker()` constructed with neither argument: the source
defaults are `max_steps=12, max_retries=3` (line 294). -/
def trackerDefault : StepExecutionTracker :=
  StepExecutionTracker.init 12 3

/-- The tracker the decision sub-loop constructs at line 167:
`StepExecutionTracker(max_steps=12, max_retries=5)`. -/
def trackerLoop : StepExecutionTracker :=
  StepExecutionTracker.init 12 5

/-- `increment`: `self.tries += 1`. -/
def StepExecutionTracker.increment (t : StepExecutionTracker) : StepExecutionTracker :=
  { t with tries := t.tries + 1 }

/-- `record_failure`: `self.attempts[step_id] = self.attempts.get(step_id, 0) + 1`. -/
def StepExecutionTracker.record_failure (t : StepExecutionTracker) (step_id : String) :
    StepExecutionTracker :=
  { t with attempts := insertD t.attempts step_id (lookupD t.attempts step_id + 1) }

/-- `retry_step_id`: `f"{step_id}F{attempts}" if attempts > 0 else step_id`. -/
def StepExecutionTracker.retry_step_id (t : StepExecutionTracker) (step_id : String) : String :=
  let attempts := lookupD t.attempts step_id
  if attempts > 0 then step_id ++ "F" ++ toString attempts else step_id

/-- `should_continue`: `self.tries < self.max_steps`. -/
def StepExecutionTracker.should_continue (t : StepExecutionTracker) : Bool :=
  t.tries < t.max_steps

/-- `has_exceeded_retries`: `self.attempts.get(step_id, 0) >= self.max_retries`. -/
def StepExecutionTracker.has_exceeded_retries (t : StepExecutionTracker) (step_id : String) : Bool :=
  lookupD t.attempts step_id ≥ t.max_retries

/-- `register_root_failure`: increments `root_failures`, returns
`root_failures >= 2` on the incremented state (lines 317-319).  The Python
method mutates `self`; here the updated tracker is returned together with
the boolean. -/
def StepExecutionTracker.register_root_failure (t : StepExecutionTracker) :
    StepExecutionTracker × Bool :=
  let t2 := { t with root_failures := t.root_failures + 1 }
  (t2, t2.root_failures ≥ 2)

/-! ## Browser sub-agent (src/browser/browser.py) -/

namespace BrowserModel

/-- Outcome of one MCP tool call inside `_execute_plan` (the environment
either returns a result or raises, caught by the `except` clause). -/
inductive ToolOutcome where
  | success (result : String)
  | error (msg : String)
deriving DecidableEq

/-- One entry of the plan list handed to `_execute_plan`: `step.get("tool")`
(absent tool name modelled by `none`) together with the oracle outcome the
MCP transport would produce if the tool is called. -/
structure PlanStep where
  tool : Option String
  outcome : ToolOutcome
deriving DecidableEq

/-- One record appended to `execution_details`. -/
structure ExecDetail where
  step : Nat
  tool : Option String
  status : String
  err : Option String
  result : Option String
deriving DecidableEq

/-- Result dict of `_execute_plan` (fields the control flow reads). -/
structure ExecResult where
  status : String
  err : Option String
  execution_details : List ExecDetail
deriving DecidableEq

/-- The `for i, step in enumerate(plan)` loop body of `_execute_plan`
(lines 279-329): a missing tool name appends an error detail and continues;
otherwise the tool call either succeeds or raises. -/
def exec_details (i : Nat) : List PlanStep → List ExecDetail
  | [] => []
  | step :: rest =>
    match step.tool with
    | none =>
      { step := i + 1, tool := none, status := "error",
        err := some "Missing tool name", result := none } :: exec_details (i + 1) rest
    | some name =>
      match step.outcome with
      | ToolOutcome.success r =>
        { step := i + 1, tool := some name, status := "success",
          err := none, result := some r } :: exec_details (i + 1) rest
      | ToolOutcome.error m =>
        { step := i + 1, tool := some name, status := "error",
          err := some m, result := none } :: exec_details (i + 1) rest

/-- `_execute_plan` (lines 263-340): failure on an empty plan; otherwise
status is `success` iff every detail has status `success`. -/
def execute_plan (plan : List PlanStep) : ExecResult :=
  if plan = [] then
    { status := "failure", err := some "Empty plan provided", execution_details := [] }
  else
    let details := exec_details 0 plan
    let all_success := details.all (fun d => d.status = "success")
    { status := if all_success then "success" else "failure",
      err := if all_success then none else some "One or more steps failed",
      execution_details := details }

/-- Raw LLM response for one iteration, before `_call_llm` post-processing:
either the call raised (status failure with an error message) or it parsed
into a plan and a `next_action` string. -/
inductive LLMRaw where
  | failure (err : String)
  | success (plan : List PlanStep) (next_action : String)
deriving DecidableEq

/-- Post-processed result of `_call_llm` as consumed by `run`. -/
structure LLMResult where
  ok : Bool
  err : Option String
  plan : List PlanStep
  next_action : String
deriving DecidableEq

/-- `_call_llm` post-processing (lines 229-261): a `next_action` outside
`{DONE, CALL_AGAIN}` defaults to `DONE`; exceptions yield a failure record
with an empty plan. -/
def call_llm (raw : LLMRaw) : LLMResult :=
  match raw with
  | LLMRaw.failure e =>
    { ok := false, err := some e, plan := [], next_action := "DONE" }
  | LLMRaw.success plan na =>
    let na2 := if na = "DONE" ∨ na = "CALL_AGAIN" then na else "DONE"
    { ok := true, err := none, plan := plan, next_action := na2 }

/-- One entry of `all_iteration_results`. -/
structure IterationResult where
  iteration : Nat
  plan : List PlanStep
  execution_details : List ExecDetail
  status : String
  next_action : String
deriving DecidableEq

/-- The dict `Browser.run` returns (fields the claims read). -/
structure BrowserResult where
  status : String
  err : Option String
  iterations : Nat
  iteration_results : List IterationResult
  execution_details : List ExecDetail
deriving DecidableEq

/-- The post-loop tail of `Browser.run` (lines 141-166): the max-iterations
failure when the model still wanted `CALL_AGAIN`, else the final status
computed over all iteration results. -/
def runFinal (max_iterations iteration : Nat) (next_action : String)
    (accDetails : List ExecDetail) (accIters : List IterationResult) : BrowserResult :=
  if iteration ≥ max_iterations ∧ next_action = "CALL_AGAIN" then
    { status := "failure",
      err := some ("Reached maximum iterations (" ++ toString max_iterations ++ ")"),
      iterations := iteration, iteration_results := accIters,
      execution_details := accDetails }
  else
    let all_success := accIters.all (fun r => r.status = "success")
    { status := if all_success then "success" else "failure",
      err := if all_success then none else some "One or more iterations failed",
      iterations := iteration, iteration_results := accIters,
      execution_details := accDetails }

/-- The `while next_action == "CALL_AGAIN" and iteration < self.max_iterations`
loop of `Browser.run` (lines 51-139), oracle-indexed by iteration number.
`fuel` equals `max_iterations - iteration` at every call: the loop body
increments `iteration` by exactly one, so fuel reaches 0 exactly when
`iteration < max_iterations` fails (see `runLoop_fuel_zero`). -/
def runLoop (max_iterations : Nat) (oracle : Nat → LLMRaw) :
    Nat → Nat → String → List ExecDetail → List IterationResult → BrowserResult
  | 0, iteration, next_action, accDetails, accIters =>
    runFinal max_iterations iteration next_action accDetails accIters
  | fuel + 1, iteration, next_action, accDetails, accIters =>
    if next_action = "CALL_AGAIN" ∧ iteration < max_iterations then
      let it := iteration + 1
      let llm := call_llm (oracle it)
      if llm.ok = false then
        { status := "failure", err := some (llm.err.getD "LLM call failed"),
          iterations := it, iteration_results := accIters,
          execution_details := accDetails }
      else if llm.plan = [] then
        runLoop max_iterations oracle fuel it "DONE" accDetails accIters
      else
        let exec := execute_plan llm.plan
        let accD2 := accDetails ++ exec.execution_details
        let iterRes : IterationResult :=
          { iteration := it, plan := llm.plan,
            execution_details := exec.execution_details,
            status := exec.status, next_action := llm.next_action }
        let accI2 := accIters ++ [iterRes]
        if exec.status ≠ "success" then
          { status := "failure", err := some (exec.err.getD "Plan execution failed"),
            iterations := it, iteration_results := accI2,
            execution_details := accD2 }
        else
          runLoop max_iterations oracle fuel it llm.next_action accD2 accI2
    else
      runFinal max_iterations iteration next_action accDetails accIters

/-- `Browser.run` (lines 24-166): `self.max_iterations = 5`;  an empty
browser-tool list (`tools_available = false`) fails before the loop. -/
def run (tools_available : Bool) (oracle : Nat → LLMRaw) : BrowserResult :=
  if tools_available then
    runLoop 5 oracle 5 0 "CALL_AGAIN" [] []
  else
    { status := "failure",
      err := some "No browser tools available. Please ensure 'webbrowsing' MCP server is configured and initialized.",
      iterations := 0, iteration_results := [], execution_details := [] }

end BrowserModel

/-! ## Plan graph and ContextManager operations

`ContextManager` (imported as `agent.contextManager`) is not among the
sources; its graph operations are modelled from the specification (§3, §4.3).
The graph is the insertion-ordered list of step nodes, mirroring
`ctx.graph.nodes` and its stable iteration order. -/

/-- Perception collaborator output: the two fields the control flow reads. -/
structure PerceptionOut where
  original_goal_achieved : Bool
  route : String
deriving DecidableEq

/-- One step node of the Plan Graph (`ctx.graph.nodes[id]["data"]`). -/
structure StepNode where
  index : String
  description : String
  step_type : String
  status : String
  result : Option String
  err : Option String
  perception : Option PerceptionOut
  from_node : Option String
deriving DecidableEq

/-- Modelled from the spec: `ContextManager.add_step` (not under src/).
Spec §3: a new step starts `pending`; adding a step whose id already exists
and is not `pending` is a no-op; an existing `pending` node is replaced in
place; an unknown id is appended. -/
def add_step (g : List StepNode) (step_id description step_type : String)
    (from_node : Option String) : List StepNode :=
  let fresh : StepNode :=
    { index := step_id, description := description, step_type := step_type,
      status := "pending", result := none, err := none, perception := none,
      from_node := from_node }
  match g.find? (fun n => n.index = step_id) with
  | some n =>
    if n.status ≠ "pending" then g
    else g.map (fun m => if m.index = step_id then fresh else m)
  | none => g ++ [fresh]

/-- Modelled from the spec: `ContextManager.mark_step_completed` sets the
node's status to `completed`. -/
def mark_step_completed (g : List StepNode) (step_id : String) : List StepNode :=
  g.map (fun n => if n.index = step_id then { n with status := "completed" } else n)

/-- Modelled from the spec: `ContextManager.mark_step_failed` sets the node's
status to `failed` and records the error text. -/
def mark_step_failed (g : List StepNode) (step_id msg : String) : List StepNode :=
  g.map (fun n => if n.index = step_id then { n with status := "failed", err := some msg } else n)

/-- Modelled from the spec: `ContextManager.attach_perception` attaches the
perception snapshot to the node. -/
def attach_perception (g : List StepNode) (step_id : String) (p : PerceptionOut) :
    List StepNode :=
  g.map (fun n => if n.index = step_id then { n with perception := some p } else n)

/-- Modelled from the spec: `ContextManager.update_step_result` attaches the
result payload to the node. -/
def update_step_result (g : List StepNode) (step_id : String) (r : Option String) :
    List StepNode :=
  g.map (fun n => if n.index = step_id then { n with result := r } else n)

/-- Modelled from the spec: `ContextManager.is_step_completed` — whether the
node exists and has status `completed`. -/
def is_step_completed (g : List StepNode) (step_id : String) : Bool :=
  match g.find? (fun n => n.index = step_id) with
  | some n => n.status = "completed"
  | none => false

/-- Modelled from the spec: `ContextManager.get_latest_node` — the id of the
most recently added node (none on an empty graph). -/
def get_latest_node (g : List StepNode) : Option String :=
  (g.getLast?).map (fun n => n.index)

/-- `AgentLoop._pick_next_step` (lines 281-286): scan `ctx.graph.nodes` in
iteration order, return the first node with status `pending`, else ROOT. -/
def pick_next_step : List StepNode → String
  | [] => "ROOT"
  | n :: rest => if n.status = "pending" then n.index else pick_next_step rest

/-- One node of the decision collaborator's `plan_graph["nodes"]` list. -/
structure PlanNodeOut where
  id : String
  description : String
deriving DecidableEq

/-- `AgentLoop.update_plan_graph` (lines 272-279): for each decision-provided
node in order, skip it when the id exists with non-`pending` status, else
`add_step` with parent `from_step_id`. -/
def update_plan_graph : List StepNode → List PlanNodeOut → String → List StepNode
  | g, [], _ => g
  | g, node :: rest, from_step_id =>
    let g2 :=
      match g.find? (fun n => n.index = node.id) with
      | some existing =>
        if existing.status ≠ "pending" then g
        else add_step g node.id node.description "CODE" (some from_step_id)
      | none => add_step g node.id node.description "CODE" (some from_step_id)
    update_plan_graph g2 rest from_step_id

/-! ## The decision sub-loop (`AgentLoop._execute_steps_loop`, lines 166-250) -/

/-- Decision collaborator output: the fields the control flow reads. -/
structure DecisionOut where
  next_step_id : String
  code_variants : String
  plan_nodes : List PlanNodeOut
deriving DecidableEq

/-- Browse collaborator output: the fields `_run_browse_loop` reads
(`page_elements` / `page_snapshot` only feed `ctx.globals`, which no claim
reads and which is not modelled). -/
structure BrowseOut where
  status : String
  result : Option String
  err : Option String
deriving DecidableEq

/-- `AgentLoop._run_browse_loop` (lines 128-164) with the browse
collaborator's answer as oracle: create a `browse_<latest>` step from the
latest node and mark it completed or failed from the reported status. -/
def run_browse_loop (g : List StepNode) (b : BrowseOut) : List StepNode :=
  let latest := (get_latest_node g).getD "ROOT"
  let bid := "browse_" ++ latest
  let g2 := add_step g bid "Browser automation execution" "CODE" (some latest)
  if b.status = "success" then
    update_step_result (mark_step_completed g2 bid) bid b.result
  else
    mark_step_failed g2 bid (b.err.getD "Browser execution failed")

/-- Oracle record for one iteration of the decision sub-loop: the values the
external collaborators would return if consulted during that iteration
(fields for calls the iteration does not make are ignored). -/
structure IterOracle where
  exec_success : Bool
  p_after : PerceptionOut
  browse : BrowseOut
  p_after_browse : PerceptionOut
  d_out : DecisionOut
  summary : String
deriving DecidableEq

/-- Mutable state of `AgentLoop` as read and written by the decision
sub-loop. -/
structure LoopState where
  graph : List StepNode
  tracker : StepExecutionTracker
  next_step_id : String
  code_variants : String
  p_out : PerceptionOut
  status : String
  final_output : Option String
deriving DecidableEq

/-- How one pass through `_execute_steps_loop` ended: each constructor is one
`return` site of the Python body, plus `ceiling` for the `while` condition
turning false. -/
inductive ExitKind where
  | rootHalt
  | summarized
  | invalidRoute
  | invalidRouteAfterBrowse
  | ceiling
deriving DecidableEq

/-- Lines 241-250: query the decision collaborator again, set
`next_step_id` / `code_variants` from its answer and merge its plan nodes
with the new target as parent; the loop then continues. -/
def decisionStep (s : LoopState) (o : IterOracle) : LoopState × Option ExitKind :=
  let d := o.d_out
  let g2 := update_plan_graph s.graph d.plan_nodes d.next_step_id
  ({ s with graph := g2, next_step_id := d.next_step_id,
            code_variants := d.code_variants }, none)

/-- One iteration of the `while tracker.should_continue()` body
(lines 170-250).  Returns the updated state and `some e` when the body hits
a `return` (exit `e`), `none` when it reaches `continue` / the loop end.
`retry_step_id` is computed only to address the executor and does not feed
back into loop state, so it does not appear here. -/
def loopIter (s : LoopState) (o : IterOracle) : LoopState × Option ExitKind :=
  let t := s.tracker.increment
  if is_step_completed s.graph s.next_step_id then
    ({ s with tracker := t, next_step_id := pick_next_step s.graph }, none)
  else if o.exec_success = false then
    let g2 := mark_step_failed s.graph s.next_step_id "All fallback variants failed"
    let t2 := t.record_failure s.next_step_id
    if t2.has_exceeded_retries s.next_step_id then
      if s.next_step_id = "ROOT" then
        let rr := t2.register_root_failure
        if rr.2 then ({ s with graph := g2, tracker := rr.1 }, some ExitKind.rootHalt)
        else ({ s with graph := g2, tracker := rr.1 }, none)
      else
        ({ s with graph := g2, tracker := t2, next_step_id := "ROOT" }, none)
    else
      ({ s with graph := g2, tracker := t2 }, none)
  else
    let g2 := mark_step_completed s.graph s.next_step_id
    let p := o.p_after
    let g3 := attach_perception g2 s.next_step_id p
    if p.original_goal_achieved || p.route = "summarize" then
      ({ s with graph := g3, tracker := t, p_out := p, status := "success",
                final_output := some o.summary }, some ExitKind.summarized)
    else if p.route = "browse" then
      let g4 := run_browse_loop g3 o.browse
      let p2 := o.p_after_browse
      let g5 := attach_perception g4 s.next_step_id p2
      if p2.original_goal_achieved || p2.route = "summarize" then
        ({ s with graph := g5, tracker := t, p_out := p2, status := "success",
                  final_output := some o.summary }, some ExitKind.summarized)
      else if p2.route ≠ "decision" then
        ({ s with graph := g5, tracker := t, p_out := p2 },
         some ExitKind.invalidRouteAfterBrowse)
      else
        decisionStep { s with graph := g5, tracker := t, p_out := p2 } o
    else if p.route ≠ "decision" then
      ({ s with graph := g3, tracker := t, p_out := p }, some ExitKind.invalidRoute)
    else
      decisionStep { s with graph := g3, tracker := t, p_out := p } o

/-- The `while tracker.should_continue()` loop, oracle-indexed by the value
of `tracker.tries` before the iteration's `increment` (so iteration n reads
`oracle (n-1)`).  `fuel` equals `max_steps - tries` at every call: the body
increments `tries` by exactly one, so fuel reaches 0 exactly when
`should_continue` turns false (see `stepsLoopGo_fuel_zero`). -/
def stepsLoopGo (oracle : Nat → IterOracle) :
    Nat → LoopState → LoopState × ExitKind
  | 0, s => (s, ExitKind.ceiling)
  | fuel + 1, s =>
    if s.tracker.should_continue then
      match loopIter s (oracle s.tracker.tries) with
      | (s2, some e) => (s2, e)
      | (s2, none) => stepsLoopGo oracle fuel s2
    else (s, ExitKind.ceiling)

/-- `AgentLoop._execute_steps_loop` (lines 166-250): construct the tracker
`StepExecutionTracker(max_steps=12, max_retries=5)` (line 167) and run the
loop. -/
def execute_steps_loop (oracle : Nat → IterOracle) (graph : List StepNode)
    (next_step_id code_variants : String) (p : PerceptionOut) :
    LoopState × ExitKind :=
  stepsLoopGo oracle 12
    { graph := graph, tracker := trackerLoop, next_step_id := next_step_id,
      code_variants := code_variants, p_out := p, status := "in_progress",
      final_output := none }

/-! ## The top-level run (`AgentLoop.run`, lines 35-77) -/

/-- Oracle for one whole run: the initial decision answer, per-iteration
sub-loop oracles, the (at most two) run-level browse answers with the
perception snapshots taken after them, and the summarizer's answer. -/
structure RunOracle where
  d_init : DecisionOut
  loopOracle : Nat → IterOracle
  browse1 : BrowseOut
  p1 : PerceptionOut
  browse2 : BrowseOut
  p2 : PerceptionOut
  summary : String

/-- What `AgentLoop.run` hands back to its caller: the returned string and
whether that return went through `_handle_failure` (the handler that logs
"Max steps reached", persists the failure snapshot and returns the
halt message). -/
structure RunResult where
  output : String
  halted_via_handler : Bool
deriving DecidableEq

/-- The exact string `_handle_failure` returns (line 270). -/
def haltMessage : String := "⚠️ Agent halted after max iterations."

/-- Graph state after `_run_initial_perception` (lines 87-97): ROOT added,
marked completed, initial perception attached. -/
def initialGraph (p0 : PerceptionOut) : List StepNode :=
  attach_perception
    (mark_step_completed (add_step [] "ROOT" "initial query" "ROOT" none) "ROOT")
    "ROOT" p0

/-- `AgentLoop._run_decision_loop` (lines 108-126): one decision call, merge
its nodes with parent hard-coded to ROOT, then `_execute_steps_loop`. -/
def run_decision_loop (o : RunOracle) (g : List StepNode) (p : PerceptionOut) :
    LoopState × ExitKind :=
  let d := o.d_init
  let g2 := d.plan_nodes.foldl
    (fun acc n => add_step acc n.id n.description "CODE" (some "ROOT")) g
  execute_steps_loop o.loopOracle g2 d.next_step_id d.code_variants p

/-- `AgentLoop.run` (lines 35-77) for one query, with the initial perception
answer `p0` and all further collaborator answers in `o`.  Each branch mirrors
one return path of the Python method; `status == "success"` checks are
inlined per branch. -/
def AgentLoop.run (p0 : PerceptionOut) (o : RunOracle) : RunResult :=
  let g0 := initialGraph p0
  if p0.original_goal_achieved || p0.route = "summarize" then
    { output := o.summary, halted_via_handler := false }
  else if p0.route = "decision" then
    let r := run_decision_loop o g0 p0
    if r.1.status = "success" then
      { output := r.1.final_output.getD "", halted_via_handler := false }
    else
      { output := haltMessage, halted_via_handler := true }
  else if p0.route = "browse" then
    let g1 := run_browse_loop g0 o.browse1
    let p1 := o.p1
    let g1b := attach_perception g1 "ROOT" p1
    if p1.original_goal_achieved || p1.route = "summarize" then
      { output := o.summary, halted_via_handler := false }
    else if p1.route = "decision" then
      let r := run_decision_loop o g1b p1
      if r.1.status = "success" then
        { output := r.1.final_output.getD "", halted_via_handler := false }
      else
        { output := haltMessage, halted_via_handler := true }
    else if p1.route = "browse" then
      let _g2 := run_browse_loop g1b o.browse2
      let p2 := o.p2
      if p2.original_goal_achieved || p2.route = "summarize" then
        { output := o.summary, halted_via_handler := false }
      else
        { output := haltMessage, halted_via_handler := true }
    else
      { output := "Summary generation failed.", halted_via_handler := false }
  else
    { output := "Summary generation failed.", halted_via_handler := false }

/-! ## Concrete sample values (used to evaluate the embedding at witnesses) -/

/-- A completed ROOT node as `_run_initial_perception` leaves it. -/
def nodeRootDone : StepNode :=
  { index := "ROOT", description := "initial query", step_type := "ROOT",
    status := "completed", result := none, err := none, perception := none,
    from_node := none }

/-- A pending planner-generated node. -/
def nodeN1Pending : StepNode :=
  { index := "n1", description := "first step", step_type := "CODE",
    status := "pending", result := none, err := none, perception := none,
    from_node := some "ROOT" }

/-- A browse answer that reports failure (sample value). -/
def browseFail : BrowseOut := { status := "failure", result := none, err := none }

/-- Sample sub-loop state: target "n1" is pending, with 4 failures already
recorded for it on a `max_retries = 5` tracker. -/
def sampleState : LoopState :=
  { graph := [nodeRootDone, nodeN1Pending],
    tracker := StepExecutionTracker.mk 12 5 [("n1", 4)] 3 0,
    next_step_id := "n1", code_variants := "cv",
    p_out := { original_goal_achieved := false, route := "decision" },
    status := "in_progress", final_output := none }

/-- Sample iteration oracle: the executor fails, perception keeps routing to
decision. -/
def sampleOracleFail : IterOracle :=
  { exec_success := false,
    p_after := { original_goal_achieved := false, route := "decision" },
    browse := browseFail,
    p_after_browse := { original_goal_achieved := false, route := "decision" },
    d_out := { next_step_id := "n2", code_variants := "cv2", plan_nodes := [] },
    summary := "done" }

/-- Sample iteration oracle: the executor succeeds but perception then
returns the unrecognized route "bogus". -/
def sampleOracleBogus : IterOracle :=
  { exec_success := true,
    p_after := { original_goal_achieved := false, route := "bogus" },
    browse := browseFail,
    p_after_browse := { original_goal_achieved := false, route := "bogus" },
    d_out := { next_step_id := "n1", code_variants := "cv", plan_nodes := [] },
    summary := "done" }

/-- Sample run oracle: one planned step "n1", and every sub-loop iteration
behaves like `sampleOracleBogus`. -/
def sampleRunOracle : RunOracle :=
  { d_init := { next_step_id := "n1", code_variants := "cv",
                plan_nodes := [{ id := "n1", description := "first step" }] },
    loopOracle := fun _ => sampleOracleBogus,
    browse1 := browseFail, p1 := { original_goal_achieved := false, route := "bogus" },
    browse2 := browseFail, p2 := { original_goal_achieved := false, route := "bogus" },
    summary := "done" }

/-- Sample browser LLM oracle: every call returns a one-step successful plan
and asks to be called again. -/
def sampleBrowserAgain : Nat → BrowserModel.LLMRaw :=
  fun _ => BrowserModel.LLMRaw.success
    [{ tool := some "open_tab", outcome := BrowserModel.ToolOutcome.success "ok" }]
    "CALL_AGAIN"

/-- Sample browser LLM oracle: one successful plan, then done. -/
def sampleBrowserDone : Nat → BrowserModel.LLMRaw :=
  fun _ => BrowserModel.LLMRaw.success
    [{ tool := some "open_tab", outcome := BrowserModel.ToolOutcome.success "ok" }]
    "DONE"

/-- Sample browser LLM oracle: a plan whose tool call raises. -/
def sampleBrowserBoom : Nat → BrowserModel.LLMRaw :=
  fun _ => BrowserModel.LLMRaw.success
    [{ tool := some "click", outcome := BrowserModel.ToolOutcome.error "boom" }]
    "CALL_AGAIN"

/-! ## Fuel justification lemmas

Both loops are embedded with a fuel argument that equals the remaining
number of permitted iterations; these lemmas show that when the fuel hits 0
the Python loop condition is false as well, so the fuel-exhaustion branch
coincides with the loop condition turning false. -/

/-- When `max_steps - tries` is 0, `should_continue` is already false, so the
fuel-0 branch of `stepsLoopGo` agrees with the `while` condition. -/
theorem stepsLoopGo_fuel_zero (s : LoopState)
    (h : s.tracker.max_steps - s.tracker.tries = 0) :
    s.tracker.should_continue = false := by
  simp [StepExecutionTracker.should_continue]
  omega

/-- When `max_iterations - iteration` is 0, the `Browser.run` loop condition
is already false, so the fuel-0 branch of `BrowserModel.runLoop` agrees with
the `while` condition. -/
theorem runLoop_fuel_zero (mi i : Nat) (na : String) (h : mi - i = 0) :
    ¬ (na = "CALL_AGAIN" ∧ i < mi) := by
  rintro ⟨-, hlt⟩
  omega

/-! ## Tracker lemmas -/

theorem lookupD_of_find_none {l : List (String × Nat)} {k : String}
    (h : l.find? (fun p => p.1 = k) = none) : lookupD l k = 0 := by
  simp [lookupD, h]

/-- Claim C2 (amended): `has_exceeded_retries(step_id)` is true exactly when
`attempts[step_id] >= max_retries`, an absent `step_id` counting as 0
attempts; the source default for `max_retries` is 3 (line 294), and the
Execution Tracker the decision sub-loop actually constructs passes
`max_retries=5` explicitly (line 167). -/
theorem claim_C2 :
    (∀ (t : StepExecutionTracker) (sid : String),
      t.has_exceeded_retries sid = true ↔ lookupD t.attempts sid ≥ t.max_retries) ∧
    (∀ (t : StepExecutionTracker) (sid : String),
      t.attempts.find? (fun p => p.1 = sid) = none → lookupD t.attempts sid = 0) ∧
    trackerDefault.max_retries = 3 ∧
    trackerLoop.max_retries = 5 := by
  refine ⟨fun t sid => ?_, fun t sid h => lookupD_of_find_none h, rfl, rfl⟩
  simp [StepExecutionTracker.has_exceeded_retries]

/-- Witness for C2 at concrete inputs: a tracker with `attempts = {"a": 7}`
and `max_retries = 5` has exceeded retries for "a", and an absent id counts
as 0 attempts. -/
theorem claim_C2_witness :
    ((StepExecutionTracker.mk 12 5 [("a", 7)] 0 0).has_exceeded_retries "a" = true ↔
      lookupD [("a", 7)] "a" ≥ 5) ∧
    lookupD (StepExecutionTracker.mk 12 5 [("a", 7)] 0 0).attempts "b" = 0 := by
  exact ⟨claim_C2.1 (StepExecutionTracker.mk 12 5 [("a", 7)] 0 0) "a",
    claim_C2.2.1 (StepExecutionTracker.mk 12 5 [("a", 7)] 0 0) "b" (by decide)⟩

/-- Counterexample for C2 as stated: a tracker constructed without an
explicit `max_retries` value gets the source default 3, not 5. -/
theorem claim_C2_counterexample :
    trackerDefault.max_retries = 3 ∧ ¬ trackerDefault.max_retries = 5 := by
  decide

/-- Claim C4: `retry_step_id` is a pure function of
`(step_id, attempts[step_id])`; it returns `step_id` unchanged when the
attempt count is 0 (in particular when `step_id` is absent), and otherwise
returns `step_id ++ "F" ++ attempt count`; with `attempts["n3"] = 2` it
addresses `"n3F2"`. -/
theorem claim_C4 :
    (∀ (t u : StepExecutionTracker) (sid : String),
      lookupD t.attempts sid = lookupD u.attempts sid →
      t.retry_step_id sid = u.retry_step_id sid) ∧
    (∀ (t : StepExecutionTracker) (sid : String),
      lookupD t.attempts sid = 0 → t.retry_step_id sid = sid) ∧
    (∀ (t : StepExecutionTracker) (sid : String),
      t.attempts.find? (fun p => p.1 = sid) = none → t.retry_step_id sid = sid) ∧
    (∀ (t : StepExecutionTracker) (sid : String),
      0 < lookupD t.attempts sid →
      t.retry_step_id sid = sid ++ "F" ++ toString (lookupD t.attempts sid)) ∧
    (StepExecutionTracker.mk 12 5 [("n3", 2)] 0 0).retry_step_id "n3" = "n3F2" := by
  refine ⟨fun t u sid h => ?_, fun t sid h => ?_, fun t sid h => ?_, fun t sid h => ?_, ?_⟩
  · simp only [StepExecutionTracker.retry_step_id, h]
  · simp [StepExecutionTracker.retry_step_id, h]
  · simp [StepExecutionTracker.retry_step_id, lookupD_of_find_none h]
  · simp [StepExecutionTracker.retry_step_id, Nat.pos_iff_ne_zero.mp h, h]
  · decide

/-- Witness for C4 at concrete inputs: two trackers agreeing on
`attempts["x"]` give the same retry id; zero and absent ids stay unchanged;
a positive count appends `F<count>`. -/
theorem claim_C4_witness :
    (StepExecutionTracker.mk 12 5 [("x", 1)] 0 0).retry_step_id "x" =
      (StepExecutionTracker.mk 12 3 [("y", 9), ("x", 1)] 4 1).retry_step_id "x" ∧
    (StepExecutionTracker.mk 12 5 [("x", 0)] 0 0).retry_step_id "x" = "x" ∧
    (StepExecutionTracker.mk 12 5 [] 0 0).retry_step_id "z" = "z" ∧
    (StepExecutionTracker.mk 12 5 [("x", 1)] 0 0).retry_step_id "x" =
      "x" ++ "F" ++ toString (lookupD [("x", 1)] "x") := by
  refine ⟨claim_C4.1 _ _ "x" (by decide), claim_C4.2.1 _ "x" (by decide),
    claim_C4.2.2.1 _ "z" (by decide), claim_C4.2.2.2.1 _ "x" (by decide)⟩

/-! ## Decision sub-loop lemmas -/

/-- `decisionStep` never touches the tracker or the run status and always
continues the loop. -/
theorem decisionStep_frame (s : LoopState) (o : IterOracle) :
    (decisionStep s o).1.tracker = s.tracker ∧
    (decisionStep s o).1.status = s.status ∧
    (decisionStep s o).2 = none := by
  simp [decisionStep]

/-- Every pass through the loop body increments `tries` by exactly one:
one scheduling iteration, one tick. -/
theorem loopIter_tries (s : LoopState) (o : IterOracle) :
    (loopIter s o).1.tracker.tries = s.tracker.tries + 1 := by
  simp only [loopIter, decisionStep, StepExecutionTracker.increment,
    StepExecutionTracker.record_failure, StepExecutionTracker.register_root_failure]
  repeat' split
  all_goals rfl

/-- The loop body never changes `max_steps`. -/
theorem loopIter_max_steps (s : LoopState) (o : IterOracle) :
    (loopIter s o).1.tracker.max_steps = s.tracker.max_steps := by
  simp only [loopIter, decisionStep, StepExecutionTracker.increment,
    StepExecutionTracker.record_failure, StepExecutionTracker.register_root_failure]
  repeat' split
  all_goals rfl

/-- Root-failure bookkeeping of one loop-body pass: a `rootHalt` exit happens
exactly on a `register_root_failure` call that pushed `root_failures` to at
least 2, and any non-halting pass leaves `root_failures` at most
`max root_failures 1`. -/
theorem loopIter_root (s : LoopState) (o : IterOracle) :
    ((loopIter s o).2 = some ExitKind.rootHalt →
      (loopIter s o).1.tracker.root_failures = s.tracker.root_failures + 1 ∧
      2 ≤ s.tracker.root_failures + 1) ∧
    ((loopIter s o).2 ≠ some ExitKind.rootHalt →
      (loopIter s o).1.tracker.root_failures ≤ max s.tracker.root_failures 1) := by
  simp only [loopIter, decisionStep, StepExecutionTracker.increment,
    StepExecutionTracker.record_failure, StepExecutionTracker.register_root_failure]
  repeat' split
  all_goals refine ⟨fun h => ?_, fun h => ?_⟩
  all_goals simp_all

/-- The loop body sets `status` only on the summarize exits. -/
theorem loopIter_status (s : LoopState) (o : IterOracle) :
    (loopIter s o).2 ≠ some ExitKind.summarized →
    (loopIter s o).1.status = s.status := by
  simp only [loopIter, decisionStep]
  repeat' split
  all_goals intro h
  all_goals simp_all

/-! ## Whole-loop lemmas -/

/-- Each loop pass adds one to `tries`, so the final `tries` is bounded by
the initial `tries` plus the fuel. -/
theorem stepsLoopGo_tries (oracle : Nat → IterOracle) :
    ∀ (fuel : Nat) (s : LoopState),
      (stepsLoopGo oracle fuel s).1.tracker.tries ≤ s.tracker.tries + fuel := by
  intro fuel
  induction fuel with
  | zero => intro s; simp [stepsLoopGo]
  | succ n ih =>
    intro s
    rw [stepsLoopGo]
    split
    · split
      next s2 e heq =>
        have h1 := loopIter_tries s (oracle s.tracker.tries)
        rw [heq] at h1
        simp at h1 ⊢
        omega
      next s2 heq =>
        have h1 := loopIter_tries s (oracle s.tracker.tries)
        rw [heq] at h1
        simp at h1
        have h2 := ih s2
        omega
    · simp

/-- Root-failure invariant of the whole loop: started with at most one
recorded root failure, the loop ends with at most two, and it exits with
`rootHalt` exactly when the count reached two. -/
theorem stepsLoopGo_root (oracle : Nat → IterOracle) :
    ∀ (fuel : Nat) (s : LoopState), s.tracker.root_failures ≤ 1 →
      (((stepsLoopGo oracle fuel s).2 = ExitKind.rootHalt ↔
        (stepsLoopGo oracle fuel s).1.tracker.root_failures = 2) ∧
       (stepsLoopGo oracle fuel s).1.tracker.root_failures ≤ 2) := by
  intro fuel
  induction fuel with
  | zero =>
    intro s hs
    simp [stepsLoopGo]
    omega
  | succ n ih =>
    intro s hs
    rw [stepsLoopGo]
    split
    · split
      next s2 e heq =>
        have hr := loopIter_root s (oracle s.tracker.tries)
        rw [heq] at hr
        simp at hr
        by_cases he : e = ExitKind.rootHalt
        · obtain ⟨h1, h2⟩ := hr.1 he
          subst he
          simp
          omega
        · have h3 := hr.2 he
          simp [he]
          omega
      next s2 heq =>
        have hr := loopIter_root s (oracle s.tracker.tries)
        rw [heq] at hr
        have h3 := hr.2 (by simp)
        simp at h3
        exact ih s2 (by omega)
    · simp
      omega

/-- The loop changes `status` only by exiting with `summarized`. -/
theorem stepsLoopGo_status (oracle : Nat → IterOracle) :
    ∀ (fuel : Nat) (s : LoopState),
      (stepsLoopGo oracle fuel s).2 = ExitKind.summarized ∨
      (stepsLoopGo oracle fuel s).1.status = s.status := by
  intro fuel
  induction fuel with
  | zero => intro s; right; simp [stepsLoopGo]
  | succ n ih =>
    intro s
    rw [stepsLoopGo]
    split
    · split
      next s2 e heq =>
        by_cases he : e = ExitKind.summarized
        · left; simpa using he
        · right
          have h1 := loopIter_status s (oracle s.tracker.tries) (by rw [heq]; simp [he])
          rw [heq] at h1
          simpa using h1
      next s2 heq =>
        have h1 := loopIter_status s (oracle s.tracker.tries) (by rw [heq]; simp)
        rw [heq] at h1
        simp at h1
        rcases ih s2 with h | h
        · left; exact h
        · right; rw [h, h1]
    · right; simp

/-- A decision sub-loop that does not exit by summarizing leaves
`AgentLoop.status` at its initial value `"in_progress"`. -/
theorem run_decision_loop_status (o : RunOracle) (g : List StepNode) (p : PerceptionOut)
    (h : (run_decision_loop o g p).2 ≠ ExitKind.summarized) :
    (run_decision_loop o g p).1.status = "in_progress" := by
  have hd := stepsLoopGo_status o.loopOracle 12
    { graph := (o.d_init.plan_nodes.foldl
        (fun acc n => add_step acc n.id n.description "CODE" (some "ROOT")) g),
      tracker := trackerLoop, next_step_id := o.d_init.next_step_id,
      code_variants := o.d_init.code_variants, p_out := p, status := "in_progress",
      final_output := none }
  rcases hd with hd | hd
  · exact absurd hd (by simpa [run_decision_loop, execute_steps_loop] using h)
  · simpa [run_decision_loop, execute_steps_loop] using hd

/-! ## Claims about the decision sub-loop -/

/-- Claim C1: within one decision sub-loop (whose tracker starts with
`root_failures = 0`), `register_root_failure` returns false on its first
invocation and true on its second; the sub-loop exits through the ROOT-halt
return exactly when the second invocation has happened (final
`root_failures = 2`), never before (the count never reaches 3). -/
theorem claim_C1 :
    ((trackerLoop.register_root_failure).2 = false ∧
     ((trackerLoop.register_root_failure).1.register_root_failure).2 = true) ∧
    (∀ t : StepExecutionTracker,
      (t.register_root_failure).2 = true ↔ 2 ≤ t.root_failures + 1) ∧
    (∀ (oracle : Nat → IterOracle) (g : List StepNode) (nsid cv : String)
        (p : PerceptionOut),
      ((execute_steps_loop oracle g nsid cv p).2 = ExitKind.rootHalt ↔
        (execute_steps_loop oracle g nsid cv p).1.tracker.root_failures = 2) ∧
      (execute_steps_loop oracle g nsid cv p).1.tracker.root_failures ≤ 2) := by
  refine ⟨⟨by decide, by decide⟩, fun t => ?_, fun oracle g nsid cv p => ?_⟩
  · simp [StepExecutionTracker.register_root_failure]
  · have h := stepsLoopGo_root oracle 12
      { graph := g, tracker := trackerLoop, next_step_id := nsid,
        code_variants := cv, p_out := p, status := "in_progress",
        final_output := none }
      (by simp [trackerLoop, StepExecutionTracker.init])
    simpa [execute_steps_loop] using h

/-- Claim C3: `should_continue()` holds exactly when `tries < max_steps`;
`max_steps` defaults to 12 and the sub-loop's tracker is built with 12;
every loop pass increments `tries` by exactly one (so `tries` counts
scheduling iterations), and the sub-loop always ends with at most 12 of
them, for every oracle behaviour. -/
theorem claim_C3 :
    (∀ t : StepExecutionTracker, t.should_continue = true ↔ t.tries < t.max_steps) ∧
    trackerDefault.max_steps = 12 ∧ trackerLoop.max_steps = 12 ∧
    (∀ (s : LoopState) (o : IterOracle),
      (loopIter s o).1.tracker.tries = s.tracker.tries + 1) ∧
    (∀ (oracle : Nat → IterOracle) (g : List StepNode) (nsid cv : String)
        (p : PerceptionOut),
      (execute_steps_loop oracle g nsid cv p).1.tracker.tries ≤ 12) := by
  refine ⟨fun t => by simp [StepExecutionTracker.should_continue], by decide, by decide,
    loopIter_tries, fun oracle g nsid cv p => ?_⟩
  have h := stepsLoopGo_tries oracle 12
    { graph := g, tracker := trackerLoop, next_step_id := nsid,
      code_variants := cv, p_out := p, status := "in_progress",
      final_output := none }
  simpa [execute_steps_loop, trackerLoop, StepExecutionTracker.init] using h

/-- Claim C6: when the current (non-completed) target fails, the failure is
recorded, and if its retries are exhausted while the target is not ROOT, the
loop marks the step failed, resets the target to ROOT and continues (no
halt); moreover `register_root_failure` is never consulted while the target
is not ROOT: `root_failures` is unchanged and the pass cannot exit with the
ROOT halt. -/
theorem claim_C6 :
    (∀ (s : LoopState) (o : IterOracle),
      is_step_completed s.graph s.next_step_id = false →
      o.exec_success = false →
      ((s.tracker.increment).record_failure s.next_step_id).has_exceeded_retries
        s.next_step_id = true →
      s.next_step_id ≠ "ROOT" →
      loopIter s o =
        ({ s with
            graph := mark_step_failed s.graph s.next_step_id
              "All fallback variants failed",
            tracker := (s.tracker.increment).record_failure s.next_step_id,
            next_step_id := "ROOT" }, none)) ∧
    (∀ (s : LoopState) (o : IterOracle), s.next_step_id ≠ "ROOT" →
      (loopIter s o).1.tracker.root_failures = s.tracker.root_failures ∧
      (loopIter s o).2 ≠ some ExitKind.rootHalt) := by
  constructor
  · intro s o h1 h2 h3 h4
    simp [loopIter, h1, h2, h3, h4]
  · intro s o h
    simp only [loopIter, decisionStep, StepExecutionTracker.increment,
      StepExecutionTracker.record_failure, StepExecutionTracker.register_root_failure]
    repeat' split
    all_goals simp_all

/-- Witness for C6: target "n1" with 4 recorded failures on a
`max_retries = 5` tracker fails once more; the loop resets the target to
ROOT, keeps `root_failures` at 0, and continues. -/
theorem claim_C6_witness :
    loopIter sampleState sampleOracleFail =
      ({ sampleState with
          graph := mark_step_failed sampleState.graph "n1"
            "All fallback variants failed",
          tracker := (sampleState.tracker.increment).record_failure "n1",
          next_step_id := "ROOT" }, none) ∧
    (loopIter sampleState sampleOracleFail).1.tracker.root_failures =
      sampleState.tracker.root_failures ∧
    (loopIter sampleState sampleOracleFail).2 ≠ some ExitKind.rootHalt := by
  refine ⟨claim_C6.1 sampleState sampleOracleFail (by decide) (by decide) (by decide)
    (by decide), claim_C6.2 sampleState sampleOracleFail (by decide)⟩

/-- Claim C8: when the current target is already completed in the Plan
Graph, the loop pass performs no execution (graph and retry counters are
untouched, only `tries` ticks) and advances the target to
`_pick_next_step`'s choice; and `_pick_next_step` returns the first node
with status `pending` in the graph's iteration order, falling back to ROOT
when none is pending. -/
theorem claim_C8 :
    (∀ (s : LoopState) (o : IterOracle),
      is_step_completed s.graph s.next_step_id = true →
      loopIter s o =
        ({ s with tracker := s.tracker.increment,
                  next_step_id := pick_next_step s.graph }, none)) ∧
    (∀ (g : List StepNode) (n : StepNode),
      g.find? (fun m => m.status = "pending") = some n →
      pick_next_step g = n.index) ∧
    (∀ g : List StepNode,
      g.find? (fun m => m.status = "pending") = none →
      pick_next_step g = "ROOT") := by
  refine ⟨fun s o h => by simp [loopIter, h], fun g n h => ?_, fun g h => ?_⟩
  · induction g with
    | nil => simp at h
    | cons a l ih =>
      rw [List.find?_cons] at h
      by_cases ha : a.status = "pending"
      · simp [ha] at h
        simp [pick_next_step, ha, ← h]
      · simp [ha] at h
        simp [pick_next_step, ha, ih h]
  · induction g with
    | nil => rfl
    | cons a l ih =>
      by_cases ha : a.status = "pending"
      · rw [List.find?_cons_of_pos _ (by simpa using ha)] at h
        simp at h
      · rw [List.find?_cons_of_neg _ (by simpa using ha)] at h
        simp [pick_next_step, ha, ih h]

/-- Witness for C8: the target ROOT is already completed, so the pass only
ticks `tries` and advances to "n1", the first pending node; and
`_pick_next_step` agrees with the first-pending scan on the sample graph and
falls back to ROOT on a graph with no pending node. -/
theorem claim_C8_witness :
    loopIter ({ sampleState with next_step_id := "ROOT" }) sampleOracleFail =
      ({ sampleState with
          next_step_id := pick_next_step sampleState.graph,
          tracker := sampleState.tracker.increment }, none) ∧
    pick_next_step [nodeRootDone, nodeN1Pending] = nodeN1Pending.index ∧
    pick_next_step [nodeRootDone] = "ROOT" := by
  refine ⟨?_, claim_C8.2.1 [nodeRootDone, nodeN1Pending] nodeN1Pending (by decide),
    claim_C8.2.2 [nodeRootDone] (by decide)⟩
  have h := claim_C8.1 ({ sampleState with next_step_id := "ROOT" }) sampleOracleFail
    (by decide)
  simpa using h

/-- Claim C7 (amended): an unrecognized route from the initial perception,
or from the perception taken after a run-level browse, aborts the run at
once with the failure result "Summary generation failed." and without the
halt handler; an unrecognized route inside the decision sub-loop likewise
aborts the sub-loop at once (no retry of the routing decision, no further
step execution), but the run then finishes through `_handle_failure` — the
same max-iterations halt handler — rather than bypassing it. -/
theorem claim_C7 :
    (∀ (p0 : PerceptionOut) (o : RunOracle),
      p0.original_goal_achieved = false →
      p0.route ≠ "summarize" → p0.route ≠ "decision" → p0.route ≠ "browse" →
      AgentLoop.run p0 o =
        { output := "Summary generation failed.", halted_via_handler := false }) ∧
    (∀ (p0 : PerceptionOut) (o : RunOracle),
      p0.original_goal_achieved = false → p0.route = "browse" →
      o.p1.original_goal_achieved = false →
      o.p1.route ≠ "summarize" → o.p1.route ≠ "decision" → o.p1.route ≠ "browse" →
      AgentLoop.run p0 o =
        { output := "Summary generation failed.", halted_via_handler := false }) ∧
    (∀ (s : LoopState) (o : IterOracle),
      is_step_completed s.graph s.next_step_id = false →
      o.exec_success = true →
      o.p_after.original_goal_achieved = false →
      o.p_after.route ≠ "summarize" → o.p_after.route ≠ "browse" →
      o.p_after.route ≠ "decision" →
      (loopIter s o).2 = some ExitKind.invalidRoute) ∧
    (∀ (p0 : PerceptionOut) (o : RunOracle),
      p0.original_goal_achieved = false → p0.route = "decision" →
      ((run_decision_loop o (initialGraph p0) p0).2 = ExitKind.invalidRoute ∨
       (run_decision_loop o (initialGraph p0) p0).2 = ExitKind.invalidRouteAfterBrowse) →
      AgentLoop.run p0 o = { output := haltMessage, halted_via_handler := true }) := by
  refine ⟨fun p0 o h1 h2 h3 h4 => ?_, fun p0 o h1 h2 h3 h4 h5 h6 => ?_,
    fun s o h1 h2 h3 h4 h5 h6 => ?_, fun p0 o h1 h2 hexit => ?_⟩
  · simp [AgentLoop.run, h1, h2, h3, h4]
  · simp [AgentLoop.run, h1, h2, h3, h4, h5, h6]
  · simp [loopIter, h1, h2, h3, h4, h5, h6]
  · have hst : (run_decision_loop o (initialGraph p0) p0).1.status = "in_progress" := by
      refine run_decision_loop_status o (initialGraph p0) p0 ?_
      rcases hexit with h | h <;> simp [h]
    simp [AgentLoop.run, h1, h2, hst]

/-- Witness for C7 (amended) at concrete inputs: an initial route "bogus"
returns the plain failure string without the halt handler, while a "bogus"
route discovered inside the sub-loop makes the whole run exit through the
halt handler. -/
theorem claim_C7_witness :
    AgentLoop.run { original_goal_achieved := false, route := "bogus" } sampleRunOracle =
      { output := "Summary generation failed.", halted_via_handler := false } ∧
    (loopIter sampleState sampleOracleBogus).2 = some ExitKind.invalidRoute ∧
    AgentLoop.run { original_goal_achieved := false, route := "decision" } sampleRunOracle =
      { output := haltMessage, halted_via_handler := true } := by
  refine ⟨claim_C7.1 ⟨false, "bogus"⟩ sampleRunOracle rfl (by decide) (by decide)
      (by decide),
    claim_C7.2.2.1 sampleState sampleOracleBogus (by decide) (by decide) (by decide)
      (by decide) (by decide) (by decide),
    claim_C7.2.2.2 ⟨false, "decision"⟩ sampleRunOracle rfl rfl (Or.inl (by decide))⟩

/-- Counterexample for C7 as stated: with the initial route "decision" and a
sub-loop whose perception then answers the unrecognized route "bogus", the
sub-loop exits with the invalid-route abort, yet `AgentLoop.run` returns
through `_handle_failure` — the max-iterations halt handling the claim says
the abort never goes through. -/
theorem claim_C7_counterexample :
    (run_decision_loop sampleRunOracle
        (initialGraph { original_goal_achieved := false, route := "decision" })
        { original_goal_achieved := false, route := "decision" }).2 =
      ExitKind.invalidRoute ∧
    AgentLoop.run { original_goal_achieved := false, route := "decision" }
        sampleRunOracle =
      { output := haltMessage, halted_via_handler := true } ∧
    ¬ (AgentLoop.run { original_goal_achieved := false, route := "decision" }
        sampleRunOracle).halted_via_handler = false := by
  refine ⟨by decide, by decide, by decide⟩

/-! ## Claim about the plan-graph merge -/

/-- Auxiliary: appending a node that fails the search predicate does not
change `find?`. -/
theorem find_append_single {g : List StepNode} {p : StepNode → Bool} {x : StepNode}
    (hx : p x = false) : (g ++ [x]).find? p = g.find? p := by
  induction g with
  | nil => simp [List.find?, hx]
  | cons a l ih =>
    by_cases pa : p a
    · simp [List.find?_cons, pa]
    · simp [List.find?_cons, pa, ih]

/-- Auxiliary: replacing all nodes of a different id leaves `find?` for this
id unchanged. -/
theorem find_map_replace {g : List StepNode} {sid other : String} {fresh : StepNode}
    (hne : sid ≠ other) (hf : fresh.index = other) :
    (g.map (fun m => if m.index = other then fresh else m)).find?
      (fun m => m.index = sid) = g.find? (fun m => m.index = sid) := by
  induction g with
  | nil => rfl
  | cons a l ih =>
    by_cases ha : a.index = other
    · simp [List.find?_cons, ha, hf, Ne.symm hne, ih]
    · simp [List.find?_cons, ha, ih]

/-- Auxiliary: `add_step` under a different id leaves `find?` for this id
unchanged. -/
theorem find_add_step_ne {g : List StepNode} {sid other d ty : String}
    {frm : Option String} (hne : sid ≠ other) :
    (add_step g other d ty frm).find? (fun m => m.index = sid) =
    g.find? (fun m => m.index = sid) := by
  unfold add_step
  split
  · split
    · rfl
    · exact find_map_replace hne rfl
  · exact find_append_single (by simp [Ne.symm hne])

/-- Claim C5: merging decision-provided nodes into the Plan Graph leaves
every existing node whose status is not `pending` entirely unchanged —
its status, result and attached perception included — whatever the provided
node list says; only unknown ids or pending nodes are added or replaced. -/
theorem claim_C5 :
    ∀ (nodes : List PlanNodeOut) (g : List StepNode) (frm sid : String)
      (n : StepNode),
      g.find? (fun m => m.index = sid) = some n → n.status ≠ "pending" →
      (update_plan_graph g nodes frm).find? (fun m => m.index = sid) = some n := by
  intro nodes
  induction nodes with
  | nil =>
    intro g frm sid n h hs
    simpa [update_plan_graph] using h
  | cons node rest ih =>
    intro g frm sid n h hs
    rw [update_plan_graph]
    by_cases hid : node.id = sid
    · rw [hid]
      rw [h]
      simp only [hs, ite_true, ne_eq, not_false_iff, if_pos]
      exact ih g frm sid n h hs
    · have hfind :
          ∀ g2 : List StepNode,
            g2 = add_step g node.id node.description "CODE" (some frm) →
            g2.find? (fun m => m.index = sid) = some n := by
        intro g2 hg2
        rw [hg2, find_add_step_ne (fun hcontra => hid hcontra.symm)]
        exact h
      cases hcase : g.find? (fun m => m.index = node.id) with
      | none => exact ih _ frm sid n (hfind _ rfl) hs
      | some existing =>
        by_cases hp : existing.status ≠ "pending"
        · simp only [hcase]
          rw [if_pos hp]
          exact ih g frm sid n h hs
        · simp only [hcase]
          rw [if_neg hp]
          exact ih _ frm sid n (hfind _ rfl) hs

/-- Witness for C5: re-announcing the completed ROOT node (and adding a new
node "n9") leaves the stored ROOT record untouched. -/
theorem claim_C5_witness :
    (update_plan_graph [nodeRootDone, nodeN1Pending]
        [{ id := "ROOT", description := "again" }, { id := "n9", description := "new" }]
        "n1").find? (fun m => m.index = "ROOT") = some nodeRootDone := by
  exact claim_C5 [{ id := "ROOT", description := "again" },
    { id := "n9", description := "new" }] [nodeRootDone, nodeN1Pending] "n1" "ROOT"
    nodeRootDone (by decide) (by decide)

/-! ## Claims about the browser sub-agent -/

namespace BrowserModel

/-- Every iteration of the browser loop returns with `iterations` at most
`max_iterations`, whatever the LLM answers. -/
theorem runLoop_iterations (mi : Nat) (o : Nat → LLMRaw) :
    ∀ (fuel i : Nat) (na : String) (accD : List ExecDetail)
      (accI : List IterationResult), i ≤ mi →
      (runLoop mi o fuel i na accD accI).iterations ≤ mi := by
  intro fuel
  induction fuel with
  | zero =>
    intro i na accD accI h
    rw [runLoop]
    unfold runFinal
    split <;> simpa using h
  | succ k ih =>
    intro i na accD accI h
    simp only [runLoop]
    split
    next hcond =>
      split
      · simpa using hcond.2
      · split
        · exact ih (i + 1) "DONE" accD accI (by omega)
        · split
          · simpa using hcond.2
          · exact ih (i + 1) _ _ _ (by omega)
    next hcond =>
      unfold runFinal
      split <;> simpa using h

/-- If every consulted LLM answer keeps returning a non-empty successfully
executing plan with `next_action = "CALL_AGAIN"`, the loop runs out of
iterations and reports the max-iterations failure. -/
theorem runLoop_call_again (mi : Nat) (o : Nat → LLMRaw) :
    ∀ (fuel i : Nat) (accD : List ExecDetail) (accI : List IterationResult),
      fuel = mi - i → i ≤ mi →
      (∀ k, i < k → k ≤ mi → ∃ plan, o k = LLMRaw.success plan "CALL_AGAIN" ∧
        plan ≠ [] ∧ (execute_plan plan).status = "success") →
      (runLoop mi o fuel i "CALL_AGAIN" accD accI).status = "failure" ∧
      (runLoop mi o fuel i "CALL_AGAIN" accD accI).err =
        some ("Reached maximum iterations (" ++ toString mi ++ ")") := by
  intro fuel
  induction fuel with
  | zero =>
    intro i accD accI hfuel hle hor
    have hge : mi ≤ i := by omega
    rw [runLoop]
    unfold runFinal
    rw [if_pos ⟨hge, by trivial⟩]
    simp
  | succ k ih =>
    intro i accD accI hfuel hle hor
    have hlt : i < mi := by omega
    obtain ⟨plan, hop, hpn, hps⟩ := hor (i + 1) (by omega) (by omega)
    simp only [runLoop]
    rw [if_pos ⟨by trivial, hlt⟩]
    simp only [hop, call_llm]
    simp only [hpn, hps]
    simp
    exact ih (i + 1) _ _ (by omega) (by omega)
      (fun k hk1 hk2 => hor k (by omega) hk2)

/-- Claim C9: `Browser.run` performs at most `max_iterations = 5`
plan-generation iterations, and when the model still answers `CALL_AGAIN`
each time (with executable plans), the result is a failure naming the
maximum-iterations limit. -/
theorem claim_C9 :
    (∀ (tools_available : Bool) (oracle : Nat → LLMRaw),
      (run tools_available oracle).iterations ≤ 5) ∧
    (∀ oracle : Nat → LLMRaw,
      (∀ k, 1 ≤ k → k ≤ 5 → ∃ plan, oracle k = LLMRaw.success plan "CALL_AGAIN" ∧
        plan ≠ [] ∧ (execute_plan plan).status = "success") →
      (run true oracle).status = "failure" ∧
      (run true oracle).err = some "Reached maximum iterations (5)") := by
  constructor
  · intro tools oracle
    cases tools with
    | false => simp [run]
    | true =>
      have h := runLoop_iterations 5 oracle 5 0 "CALL_AGAIN" [] [] (by omega)
      simpa [run] using h
  · intro oracle hor
    have h := runLoop_call_again 5 oracle 5 0 [] [] (by omega) (by omega)
      (fun k hk1 hk2 => hor k (by omega) hk2)
    simpa [run] using h

/-- Witness for C9: the oracle that always answers `CALL_AGAIN` with a
one-step successful plan makes `Browser.run` fail with the max-iterations
message, within the 5-iteration bound. -/
theorem claim_C9_witness :
    (run true sampleBrowserAgain).iterations ≤ 5 ∧
    (run true sampleBrowserAgain).status = "failure" ∧
    (run true sampleBrowserAgain).err = some "Reached maximum iterations (5)" := by
  refine ⟨claim_C9.1 true sampleBrowserAgain, ?_, ?_⟩
  · exact (claim_C9.2 sampleBrowserAgain
      (fun k hk1 hk2 => ⟨_, rfl, by decide, by decide⟩)).1
  · exact (claim_C9.2 sampleBrowserAgain
      (fun k hk1 hk2 => ⟨_, rfl, by decide, by decide⟩)).2

/-- A successful `_execute_plan` result means every recorded detail
succeeded. -/
theorem execute_plan_success_details (plan : List PlanStep)
    (h : (execute_plan plan).status = "success") :
    ∀ d ∈ (execute_plan plan).execution_details, d.status = "success" := by
  by_cases hp : plan = []
  · simp [execute_plan, hp] at h
  · simp only [execute_plan, if_neg hp] at h ⊢
    by_cases hall : ((exec_details 0 plan).all fun d => d.status = "success") = true
    · intro d hd
      have hx := (List.all_eq_true.mp hall) d hd
      simpa using hx
    · rw [if_neg hall] at h
      simp at h

/-- A plan step without a tool name, or whose tool call raises, produces an
`error` detail. -/
theorem exec_details_bad :
    ∀ (plan : List PlanStep) (i : Nat) (s : PlanStep), s ∈ plan →
      (s.tool = none ∨ ∃ m, s.outcome = ToolOutcome.error m) →
      ∃ d ∈ exec_details i plan, d.status = "error" := by
  intro plan
  induction plan with
  | nil => intro i s hs; simp at hs
  | cons a rest ih =>
    intro i s hs hbad
    rcases List.mem_cons.mp hs with rfl | hmem
    · rcases hbad with htool | ⟨m, hout⟩
      · exact ⟨{ step := i + 1, tool := none, status := "error",
                 err := some "Missing tool name", result := none },
          by rw [exec_details, htool]; exact List.mem_cons_self _ _, rfl⟩
      · cases hcase : s.tool with
        | none =>
          exact ⟨{ step := i + 1, tool := none, status := "error",
                   err := some "Missing tool name", result := none },
            by rw [exec_details, hcase]; exact List.mem_cons_self _ _, rfl⟩
        | some name =>
          exact ⟨{ step := i + 1, tool := some name, status := "error",
                   err := some m, result := none },
            by rw [exec_details, hcase, hout]; exact List.mem_cons_self _ _, rfl⟩
    · obtain ⟨d, hd, hds⟩ := ih (i + 1) s hmem hbad
      refine ⟨d, ?_, hds⟩
      rw [exec_details]
      cases a.tool with
      | none => exact List.mem_cons_of_mem _ hd
      | some name =>
        cases a.outcome with
        | success r => exact List.mem_cons_of_mem _ hd
        | error m => exact List.mem_cons_of_mem _ hd

/-- A plan containing a bad step never executes successfully. -/
theorem execute_plan_bad_failure (plan : List PlanStep) (s : PlanStep)
    (hs : s ∈ plan) (hbad : s.tool = none ∨ ∃ m, s.outcome = ToolOutcome.error m) :
    (execute_plan plan).status = "failure" := by
  have hp : plan ≠ [] := by rintro rfl; simp at hs
  obtain ⟨d, hd, hds⟩ := exec_details_bad plan 0 s hs hbad
  have hall : ((exec_details 0 plan).all fun d => d.status = "success") = false := by
    cases hx : (exec_details 0 plan).all fun d => d.status = "success" with
    | false => rfl
    | true =>
      have := (List.all_eq_true.mp hx) d hd
      simp [hds] at this
  simp [execute_plan, if_neg hp, hall]

/-- Accumulator invariant for `runLoop`: if everything recorded so far
succeeded, a success result can only carry all-successful details (the loop
returns early on the first failing iteration). -/
theorem runLoop_success_details (mi : Nat) (o : Nat → LLMRaw) :
    ∀ (fuel i : Nat) (na : String) (accD : List ExecDetail)
      (accI : List IterationResult),
      (∀ d ∈ accD, d.status = "success") →
      (runLoop mi o fuel i na accD accI).status = "success" →
      ∀ d ∈ (runLoop mi o fuel i na accD accI).execution_details,
        d.status = "success" := by
  intro fuel
  induction fuel with
  | zero =>
    intro i na accD accI hacc
    rw [runLoop]
    unfold runFinal
    split
    · exact fun h d hd => hacc d hd
    · exact fun h d hd => hacc d hd
  | succ k ih =>
    intro i na accD accI hacc
    simp only [runLoop]
    split
    next hcond =>
      split
      · intro h
        simp at h
      · split
        · exact ih (i + 1) "DONE" accD accI hacc
        · split
          next hfail =>
            intro h
            simp at h
          next hsucc =>
            refine ih (i + 1) _ _ _ ?_
            intro d hd
            rcases List.mem_append.mp hd with hL | hR
            · exact hacc d hL
            · exact execute_plan_success_details _ (not_not.mp (by simpa using hsucc))
                d hR
    next hcond =>
      unfold runFinal
      split
      · exact fun h d hd => hacc d hd
      · exact fun h d hd => hacc d hd

/-- Claim C10: `_execute_plan` fails on an empty plan; it fails whenever
some step lacks a tool name or its tool call raised; a `Browser.run` result
with status `success` carries only successful execution details; and an
iteration whose plan execution is not successful makes `runLoop` return a
failure at that very iteration. -/
theorem claim_C10 :
    (execute_plan []).status = "failure" ∧
    (∀ (plan : List PlanStep) (s : PlanStep), s ∈ plan →
      (s.tool = none ∨ ∃ m, s.outcome = ToolOutcome.error m) →
      (execute_plan plan).status = "failure") ∧
    (∀ (tools_available : Bool) (oracle : Nat → LLMRaw),
      (run tools_available oracle).status = "success" →
      ∀ d ∈ (run tools_available oracle).execution_details,
        d.status = "success") ∧
    (∀ (mi fuel i : Nat) (o : Nat → LLMRaw) (accD : List ExecDetail)
        (accI : List IterationResult) (plan : List PlanStep),
      i < mi → o (i + 1) = LLMRaw.success plan "CALL_AGAIN" → plan ≠ [] →
      (execute_plan plan).status ≠ "success" →
      (runLoop mi o (fuel + 1) i "CALL_AGAIN" accD accI).status = "failure" ∧
      (runLoop mi o (fuel + 1) i "CALL_AGAIN" accD accI).iterations = i + 1) := by
  refine ⟨by decide, execute_plan_bad_failure, ?_, ?_⟩
  · intro tools oracle
    cases tools with
    | false => intro h; simp [run] at h
    | true =>
      have h := runLoop_success_details 5 oracle 5 0 "CALL_AGAIN" [] [] (by simp)
      simpa [run] using h
  · intro mi fuel i o accD accI plan hlt hop hpn hps
    simp only [runLoop]
    rw [if_pos ⟨by trivial, hlt⟩]
    simp only [hop, call_llm]
    simp only [hpn, hps]
    simp [hps]

end BrowserModel

/-- Witness for C10: a plan whose only step lacks a tool name fails; the
run driven by a one-plan-then-done oracle is a success whose recorded
details all succeeded; and a raising tool call makes the loop fail at
iteration 1. -/
theorem claim_C10_witness :
    (BrowserModel.execute_plan
      [{ tool := none, outcome := BrowserModel.ToolOutcome.success "ok" }]).status =
      "failure" ∧
    (∀ d ∈ (BrowserModel.run true sampleBrowserDone).execution_details,
      d.status = "success") ∧
    (BrowserModel.runLoop 5 sampleBrowserBoom 5 0 "CALL_AGAIN" [] []).status =
      "failure" ∧
    (BrowserModel.runLoop 5 sampleBrowserBoom 5 0 "CALL_AGAIN" [] []).iterations = 1 := by
  refine ⟨BrowserModel.claim_C10.2.1 _ _ (List.mem_singleton_self _) (Or.inl rfl),
    BrowserModel.claim_C10.2.2.1 true sampleBrowserDone (by decide), ?_, ?_⟩
  · exact (BrowserModel.claim_C10.2.2.2 5 4 0 sampleBrowserBoom [] [] _ (by omega) rfl
      (by decide) (by decide)).1
  · exact (BrowserModel.claim_C10.2.2.2 5 4 0 sampleBrowserBoom [] [] _ (by omega) rfl
      (by decide) (by decide)).2
